import Mathlib

/-!
Shallow embedding of the git-based deploy adapter (`deploy-adapter.py`) and of
the build/push workflow (`dagger.py`).  External effects — subprocess execution,
the filesystem, HTTP requests and wall-clock time — are modelled by explicit
oracles (exit-code functions, scripted HTTP results, per-cycle request delays)
and by traces of the visible actions each function performs.  Every definition
is translated from the Python source; comments cite the source lines.
-/

/-! ## Status Poller (`poll_status_url`, deploy-adapter.py lines 170-194)

The decoded JSON body of a status response is modelled as a finite association
list of string-valued fields (the status endpoint contract exposes a
status-like string field under one of several conventional names). -/

/-- A decoded JSON response body: field name to string value. -/
abbrev Body := List (String × String)

/-- Python `j.get(k)` on a decoded body: the value of the first binding of `k`. -/
def jGet (j : Body) (k : String) : Option String :=
  (j.find? (fun p => p.1 == k)).map (fun p => p.2)

/-- Python `a or b` on optional strings: `a` wins only when it is truthy,
i.e. present and non-empty. -/
def pyOr (a b : Option String) : Option String :=
  match a with
  | some s => if s = "" then b else some s
  | none => b

/-- The extraction chain `j.get("status") or j.get("state") or j.get("deploy_status") or None`
(line 182). -/
def extractStatus (j : Body) : Option String :=
  pyOr (jGet j "status") (pyOr (jGet j "state") (pyOr (jGet j "deploy_status") none))

/-- Python `str.lower()` (agrees with `String.toLower`, written so that it
reduces in the kernel). -/
def toLowerStr (s : String) : String := String.mk (s.data.map Char.toLower)

/-- The success tokens of line 184. -/
def successSet : List String := ["done", "success", "ready"]

/-- The failure tokens of line 187. -/
def failureSet : List String := ["failed", "error"]

/-- What one poll cycle does with a decoded response body `j`
(lines 182-189): return the payload, raise `SystemExit`, or keep polling
remembering `j` as the last-seen payload. -/
inductive CycleOutcome
  | succeed (j : Body)
  | fatal (j : Body)
  | keepPolling (j : Body)
deriving DecidableEq, Repr

/-- One poll cycle on a decoded response (lines 182-189).  `status` is truthy
exactly when `extractStatus` returns a value (the trailing `or None` of
line 182 turns an empty string into `None`). -/
def pollCycle (j : Body) : CycleOutcome :=
  match extractStatus j with
  | some s =>
    if successSet.contains (toLowerStr s) then .succeed j
    else if failureSet.contains (toLowerStr s) then .fatal j
    else .keepPolling j
  | none => .keepPolling j

/-- The result of one HTTP GET in the poll loop: either a decoded body, or a
`requests.RequestException` (connection error, HTTP error status from
`raise_for_status`, body that fails to decode) which is logged and treated as
no signal for this cycle (lines 190-191). -/
inductive HttpResult
  | response (j : Body)
  | transportError
deriving DecidableEq, Repr

/-- The overall result of `poll_status_url`: return the payload on success,
raise `SystemExit` on an explicit failure status, or fall out of the loop at
the deadline returning the last-seen payload (lines 184-194). -/
inductive PollResult
  | succeeded (j : Body)
  | failed (j : Body)
  | timedOut (last : Option Body)
deriving DecidableEq, Repr

/-- A poll result is fatal exactly when it models the `SystemExit` raised on an
explicit failure status (line 188). -/
def PollResult.isFatal : PollResult → Bool
  | .failed _ => true
  | _ => false

/-- An HTTP result that does not terminate the loop: a transport error, or a
response whose cycle keeps polling. -/
def nonTerminal : HttpResult → Bool
  | .transportError => true
  | .response j =>
    match pollCycle j with
    | .keepPolling _ => true
    | _ => false

/-- The poll loop of lines 175-194.  `script k` is the result of the `k`-th
HTTP GET, `delay k` the time that request consumed, `t` the time elapsed since
`deadline = time.time() + timeout` was taken; the loop runs while `t < timeout`
and each cycle ends with `time.sleep(interval)`.  The fuel argument only
bounds recursion; with `1 ≤ interval` and fuel `timeout + 1` it never runs
out.  Returns the result together with the number of HTTP GETs performed. -/
def pollAux (script : Nat → HttpResult) (delay : Nat → Nat) (interval timeout : Nat) :
    Nat → Nat → Nat → Option Body → PollResult × Nat
  | 0, _, _, last => (.timedOut last, 0)
  | fuel + 1, k, t, last =>
    if t < timeout then
      match script k with
      | .transportError =>
        let r := pollAux script delay interval timeout fuel (k + 1) (t + delay k + interval) last
        (r.1, r.2 + 1)
      | .response j =>
        match pollCycle j with
        | .succeed _ => (.succeeded j, 1)
        | .fatal _ => (.failed j, 1)
        | .keepPolling _ =>
          let r := pollAux script delay interval timeout fuel (k + 1) (t + delay k + interval) (some j)
          (r.1, r.2 + 1)
    else (.timedOut last, 0)

/-- Model of `poll_status_url` (lines 170-194): run the poll loop from time 0 with no
last-seen payload. -/
def poll_status_url (script : Nat → HttpResult) (delay : Nat → Nat)
    (interval timeout : Nat) : PollResult × Nat :=
  pollAux script delay interval timeout (timeout + 1) 0 0 none

/-- The last response body among the `n` scripted cycles starting at index `k`,
starting from accumulator `acc` (transport-error cycles leave it unchanged). -/
def lastSeenFrom (script : Nat → HttpResult) : Nat → Nat → Option Body → Option Body
  | _, 0, acc => acc
  | k, n + 1, acc =>
    lastSeenFrom script (k + 1) n
      (match script k with
       | .response j => some j
       | .transportError => acc)

/-! ## Command Runner and Push Executor
(`run`, `git_push_current_head`, `git_push_artifact_dir`,
deploy-adapter.py lines 51-167)

A command is its argv list.  Exit codes of the external processes are an
oracle `exec : Nat → Cmd → Nat` taking the index of the invocation within the
function (the source functions are straight-line, so indices are static) and
the command itself.  Each function returns the trace of its visible actions:
lines printed, commands executed, and the file operations it performs. -/

/-- An external command as an argv list. -/
abbrev Cmd := List String

/-- The display form echoed by `run` (lines 52-56). -/
def display (c : Cmd) : String := String.intercalate " " c

/-- A visible action of the deploy adapter. -/
inductive Step
  | print (s : String)
  | cmd (c : Cmd)
  | cleanWorkdir
  | copyArtifact
  | removeTmpDir
deriving DecidableEq, Repr

/-- The actions of one `run(cmd)` call (lines 51-57): echo the command line to
stdout, then execute it. -/
def runStep (c : Cmd) : List Step := [.print ("$ " ++ display c), .cmd c]

/-- The `SystemExit` message raised by `run` when a checked command exits
nonzero (line 63). -/
def cmdFailMsg (c : Cmd) (code : Nat) : String :=
  "Command failed: " ++ display c ++ " (exit " ++ toString code ++ ")"

/-- How a function finished: normally, or by raising `SystemExit msg`. -/
inductive Outcome
  | ok
  | exit (msg : String)
deriving DecidableEq, Repr

/-- The `Using GIT_SSH_COMMAND=...` print of lines 107-109 / 130-131 when an
SSH key path is present. -/
def sshPre (sshKeyPath : Option String) : List Step :=
  match sshKeyPath with
  | some p => [.print ("Using GIT_SSH_COMMAND=ssh -i " ++ p ++ " -o StrictHostKeyChecking=no")]
  | none => []

/-- The temporary remote name of line 112. -/
def rmRemoteCmd : Cmd := ["git", "remote", "remove", "backend_im_deploy"]

/-- The command `git remote add backend_im_deploy <url>` (line 115). -/
def addRemoteCmd (remoteUrl : String) : Cmd :=
  ["git", "remote", "add", "backend_im_deploy", remoteUrl]

/-- The push command of lines 117-120; `--force` is inserted at index 2. -/
def pushHeadCmd (branch : String) (force : Bool) : Cmd :=
  if force then ["git", "push", "--force", "backend_im_deploy", "HEAD:refs/heads/" ++ branch]
  else ["git", "push", "backend_im_deploy", "HEAD:refs/heads/" ++ branch]

/-- Model of `git_push_current_head` (lines 102-124).  Invocation indices: 0 the
non-raising pre-removal of the temporary remote, 1 `git remote add` (checked),
2 `git push` (checked), 3 the non-raising post-push removal.  A checked
command with nonzero exit raises `SystemExit` on the spot: there is no
`try/finally` in this function. -/
def git_push_current_head (exec : Nat → Cmd → Nat) (remoteUrl branch : String)
    (sshKeyPath : Option String) (force : Bool) : List Step × Outcome :=
  let pre := sshPre sshKeyPath
  let add := addRemoteCmd remoteUrl
  let push := pushHeadCmd branch force
  let c1 := exec 1 add
  if c1 != 0 then
    (pre ++ runStep rmRemoteCmd ++ runStep add, .exit (cmdFailMsg add c1))
  else
    let c2 := exec 2 push
    if c2 != 0 then
      (pre ++ runStep rmRemoteCmd ++ runStep add ++ runStep push, .exit (cmdFailMsg push c2))
    else
      (pre ++ runStep rmRemoteCmd ++ runStep add ++ runStep push ++ runStep rmRemoteCmd, .ok)

/-- The command `git clone <url> <tmp>` (line 136). -/
def cloneCmd (remoteUrl tmp : String) : Cmd := ["git", "clone", remoteUrl, tmp]

/-- The command `git checkout -B <branch>` (line 138). -/
def checkoutCmd (branch : String) : Cmd := ["git", "checkout", "-B", branch]

/-- The command `git add -A` (line 159). -/
def addCmd : Cmd := ["git", "add", "-A"]

/-- The command `git commit -m <msg>` (line 160, run with `check=False`). -/
def commitCmd (msg : String) : Cmd := ["git", "commit", "-m", msg]

/-- The push command of lines 161-163; `--force` is inserted at index 2. -/
def pushArtifactCmd (branch : String) (force : Bool) : Cmd :=
  if force then ["git", "push", "--force", "origin", "HEAD:refs/heads/" ++ branch]
  else ["git", "push", "origin", "HEAD:refs/heads/" ++ branch]

/-- The result of `git_push_artifact_dir`: its trace, how it finished, and
whether the ephemeral clone directory still exists afterwards. -/
structure ArtifactRun where
  trace : List Step
  outcome : Outcome
  tmpExists : Bool
deriving DecidableEq, Repr

/-- The `try` body of `git_push_artifact_dir` (lines 135-164).
`artifactExists` is whether the caller-supplied artifact directory exists on
disk; `tmp` is the unique directory `tempfile.mkdtemp` produced.  Invocation
indices: 0 clone, 1 checkout, 2 add, 3 commit (`check=False`), 4 push.
Returns the trace of the body and how it finished. -/
def artifactBody (exec : Nat → Cmd → Nat) (remoteUrl branch artifactDir : String)
    (artifactExists : Bool) (commitMsg : String) (force : Bool) (tmp : String) :
    List Step × Outcome :=
  let clone := cloneCmd remoteUrl tmp
  let co := checkoutCmd branch
  let c0 := exec 0 clone
  if c0 != 0 then
    (runStep clone, .exit (cmdFailMsg clone c0))
  else
    let c1 := exec 1 co
    if c1 != 0 then
      (runStep clone ++ runStep co, .exit (cmdFailMsg co c1))
    else
      -- lines 140-146: delete every entry of the clone except `.git`,
      -- then line 149: check that the artifact directory exists
      if !artifactExists then
        (runStep clone ++ runStep co ++ [.cleanWorkdir],
          .exit ("artifact_dir " ++ artifactDir ++ " does not exist"))
      else
        let copySteps : List Step :=
          [.cleanWorkdir,
           .print ("Copying artifact from " ++ artifactDir ++ " to temp repo..."),
           .copyArtifact]
        let c2 := exec 2 addCmd
        if c2 != 0 then
          (runStep clone ++ runStep co ++ copySteps ++ runStep addCmd,
            .exit (cmdFailMsg addCmd c2))
        else
          -- line 160: the commit runs with check=False, its exit code is ignored
          let commit := commitCmd commitMsg
          let push := pushArtifactCmd branch force
          let c4 := exec 4 push
          if c4 != 0 then
            (runStep clone ++ runStep co ++ copySteps ++ runStep addCmd ++
                runStep commit ++ runStep push,
              .exit (cmdFailMsg push c4))
          else
            (runStep clone ++ runStep co ++ copySteps ++ runStep addCmd ++
                runStep commit ++ runStep push,
              .ok)

/-- Model of `git_push_artifact_dir` (lines 127-167): print the `GIT_SSH_COMMAND`
notice if a key path is present and announce the clone, run the `try` body,
then — on every path — run the `finally` block of lines 165-167, which
prints and removes the ephemeral clone directory with
`shutil.rmtree(tmp, ignore_errors=True)`, modelled as the `.removeTmpDir`
step leaving `tmpExists = false`. -/
def git_push_artifact_dir (exec : Nat → Cmd → Nat) (remoteUrl branch artifactDir : String)
    (artifactExists : Bool) (sshKeyPath : Option String) (commitMsg : String)
    (force : Bool) (tmp : String) : ArtifactRun :=
  let pre := sshPre sshKeyPath ++ [.print ("Cloning remote into tempdir " ++ tmp ++ " ...")]
  let body := artifactBody exec remoteUrl branch artifactDir artifactExists commitMsg force tmp
  { trace := pre ++ body.1 ++ [.print "Cleaning up tempdir", .removeTmpDir],
    outcome := body.2, tmpExists := false }

/-- Every executed command in the trace is immediately preceded by the echo of
its own command line. -/
def echoed : List Step → Bool
  | [] => true
  | .cmd _ :: _ => false
  | .print s :: .cmd c :: rest => (s == "$ " ++ display c) && echoed rest
  | _ :: rest => echoed rest

/-! ## Credential Materializer (`write_ssh_key_if_provided`,
deploy-adapter.py lines 77-99)

Bytes are `Nat` values below 256.  `base64.b64decode` (non-strict mode) is
modelled faithfully for its observable behaviour: non-ASCII input fails,
characters outside the base64 alphabet and `=` are discarded, the data run
stops at the first `=`, a final partial group of 2 or 3 characters needs
enough padding characters, and a leftover single data character is invalid. -/

/-- The 6-bit value of a base64 alphabet character. -/
def b64charVal (c : Char) : Option Nat :=
  if 'A' ≤ c ∧ c ≤ 'Z' then some (c.toNat - 65)
  else if 'a' ≤ c ∧ c ≤ 'z' then some (c.toNat - 97 + 26)
  else if '0' ≤ c ∧ c ≤ '9' then some (c.toNat - 48 + 52)
  else if c = '+' then some 62
  else if c = '/' then some 63
  else none

/-- Reassemble bytes from a list of 6-bit values; a trailing group of 3 gives
two bytes, of 2 one byte, discarded bits are ignored (as in CPython). -/
def b64quads : List Nat → List Nat
  | a :: b :: c :: d :: rest =>
    (a * 4 + b / 16) :: ((b % 16) * 16 + c / 4) :: ((c % 4) * 64 + d) :: b64quads rest
  | [a, b, c] => [a * 4 + b / 16, (b % 16) * 16 + c / 4]
  | [a, b] => [a * 4 + b / 16]
  | [_] => []
  | [] => []

/-- Model of `base64.b64decode` on a string argument (line 86): `none` models
the `binascii.Error` / `ValueError` caught by the `except` of line 91. -/
def b64decodeOpt (s : String) : Option (List Nat) :=
  if s.data.any (fun c => 128 ≤ c.toNat) then none
  else
    let filtered := s.data.filter (fun c => (b64charVal c).isSome || c == '=')
    let data := (filtered.takeWhile (fun c => c != '=')).filterMap b64charVal
    let pad := (filtered.dropWhile (fun c => c != '=')).countP (fun c => c == '=')
    let r := data.length % 4
    if r == 0 then some (b64quads data)
    else if r == 1 then none
    else if r == 2 then (if 2 ≤ pad then some (b64quads data) else none)
    else (if 1 ≤ pad then some (b64quads data) else none)

/-- UTF-8 encoding of one character. -/
def charUtf8 (c : Char) : List Nat :=
  let n := c.toNat
  if n < 128 then [n]
  else if n < 2048 then [192 + n / 64, 128 + n % 64]
  else if n < 65536 then [224 + n / 4096, 128 + (n / 64) % 64, 128 + n % 64]
  else [240 + n / 262144, 128 + (n / 4096) % 64, 128 + (n / 64) % 64, 128 + n % 64]

/-- Python `str.encode()`: the UTF-8 bytes of a string. -/
def strUtf8 (s : String) : List Nat := (s.data.map charUtf8).flatten

/-- Python `str.strip()`: drop leading and trailing whitespace (agrees with
`String.trim`, written so that it reduces in the kernel). -/
def pyStrip (s : String) : String :=
  String.mk (((s.data.dropWhile Char.isWhitespace).reverse.dropWhile Char.isWhitespace).reverse)

/-- The bytes of `b"BEGIN"` (line 88). -/
def beginMarker : List Nat := [66, 69, 71, 73, 78]

/-- Python `needle in hay` on byte strings: contiguous subsequence test. -/
def bytesContain (needle : List Nat) : List Nat → Bool
  | [] => needle.isEmpty
  | x :: rest => needle.isPrefixOf (x :: rest) || bytesContain needle rest

/-- The temporary key file: the bytes written to it and its permission bits. -/
structure KeyFile where
  bytes : List Nat
  mode : Nat
deriving DecidableEq, Repr

/-- Model of `write_ssh_key_if_provided` (lines 77-99).  `none` models the `None`
return for a missing or empty (falsy) input.  Otherwise the input is stripped
(line 82); if it base64-decodes and the decoded bytes contain `b"BEGIN"`
within their first 50 bytes, the decoded bytes are written, else the stripped
input string's own bytes are written (lines 84-92).  `tempfile.mkstemp`
creates the file fresh and `os.chmod(path, 0o600)` restricts it to the owner
(lines 94-97). -/
def write_ssh_key_if_provided (key : Option String) : Option KeyFile :=
  match key with
  | none => none
  | some raw =>
    if raw = "" then none
    else
      let candidate := pyStrip raw
      let keyBytes :=
        match b64decodeOpt candidate with
        | some bs => if bytesContain beginMarker (bs.take 50) then bs else strUtf8 candidate
        | none => strUtf8 candidate
      some { bytes := keyBytes, mode := 0o600 }

/-! ## Registry login (`run`, `docker_login_if_needed`, dagger.py lines 42-53
and 123-136)

`dagger.py` has its own `run` with the same echo-then-execute behaviour; the
GHCR login passes a shell string command, so its visible actions are prints
and shell executions. -/

/-- A visible action of `dagger.py`. -/
inductive DStep
  | print (s : String)
  | execSh (s : String)
deriving DecidableEq, Repr

/-- One `run(cmd)` call on a shell string command (dagger.py lines 42-48):
the display form is the string itself; it is echoed, then executed. -/
def runSh (s : String) : List DStep := [.print ("$ " ++ s), .execSh s]

/-- Python truthiness of an optional environment value. -/
def truthy : Option String → Bool
  | none => false
  | some s => s != ""

/-- Python `s.startswith(p)` (agrees with `String.startsWith`, written so that
it reduces in the kernel). -/
def strStartsWith (s p : String) : Bool := p.data.isPrefixOf s.data

/-- Model of `docker_login_if_needed` (dagger.py lines 123-136).  `ghcrUser` and
`ghcrToken` model `os.environ.get("GHCR_USER")` / `os.environ.get("GHCR_TOKEN")`. -/
def docker_login_if_needed (imageRef : String) (ghcrUser ghcrToken : Option String) :
    List DStep :=
  if strStartsWith imageRef "ghcr.io/" then
    if truthy ghcrUser && truthy ghcrToken then
      [.print "Logging in to ghcr.io..."] ++
      runSh ("echo " ++ ghcrToken.getD "" ++ " | docker login ghcr.io -u " ++
        ghcrUser.getD "" ++ " --password-stdin")
    else
      [.print "No GHCR credentials provided in GHCR_USER/GHCR_TOKEN — assume docker is already logged in or image is public"]
  else if imageRef.data.contains ':' || imageRef.data.contains '/' then
    [.print "Ensure you're logged in to your container registry (docker login) if auth is required."]
  else []

/-- Every shell execution in a `dagger.py` trace is immediately preceded by
the echo of its own command line. -/
def dEchoed : List DStep → Bool
  | [] => true
  | .execSh _ :: _ => false
  | .print s :: .execSh c :: rest => (s == "$ " ++ c) && dEchoed rest
  | _ :: rest => dEchoed rest

/-! ## Deployment Orchestrator (`ensure_clean_worktree`, `main`,
deploy-adapter.py lines 67-74 and 211-245)

`main` is modelled at the level of its orchestration steps; each sub-function
is the embedding defined above.  The `try`/`finally` of lines 216-245 is
modelled by running the body first and appending the cleanup afterwards on
every path. -/

/-- Model of `ensure_clean_worktree` (lines 67-74): run `git status --porcelain`
(checked, captured; `statusExit` its exit code, `statusOut` its stdout) and
refuse to continue when the stripped output is non-empty and `--allow-dirty`
was not given. -/
def ensure_clean_worktree (statusExit : Nat) (statusOut : String) (allowDirty : Bool) :
    Outcome :=
  if statusExit != 0 then
    .exit (cmdFailMsg ["git", "status", "--porcelain"] statusExit)
  else if pyStrip statusOut != "" && !allowDirty then
    .exit "Refusing to push with a dirty working tree. Commit or use --allow-dirty to override."
  else .ok

/-- An orchestration-level step of `main`. -/
inductive MStep
  | writeKey
  | ensureClean
  | pushHead
  | pushArtifact
  | poll
  | removeKey
deriving DecidableEq, Repr

/-- The command-line arguments of `parse_args` (lines 197-208) that `main`
consumes. -/
structure MainArgs where
  remote : String
  branch : String
  artifactDir : Option String
  commitMsg : Option String
  allowDirty : Bool
  force : Bool
  statusUrl : Option String
  statusTimeout : Nat
  skipPoll : Bool

/-- The environment and external world `main` runs against. -/
structure MainEnv where
  /-- `GIT_SSH_KEY` or-else `GIT_SSH_KEY_BASE64` (line 214). -/
  gitSshKey : Option String
  /-- The path `tempfile.mkstemp` gives the key file (line 94). -/
  keyPath : String
  /-- Exit code of `git status --porcelain` (line 68). -/
  statusExit : Nat
  /-- Captured stdout of `git status --porcelain` (line 69). -/
  statusOut : String
  /-- Exit codes for the commands of `git_push_current_head`. -/
  headExec : Nat → Cmd → Nat
  /-- Exit codes for the commands of `git_push_artifact_dir`. -/
  artExec : Nat → Cmd → Nat
  /-- Whether the caller-supplied artifact directory exists (line 149). -/
  artifactDirExists : Bool
  /-- The directory `tempfile.mkdtemp` produces (line 133). -/
  tmpDir : String
  /-- The timestamp of the default commit message (line 226). -/
  now : String
  /-- The scripted status responses (line 179). -/
  pollScript : Nat → HttpResult
  /-- Request durations of the status polls. -/
  pollDelay : Nat → Nat
  /-- Whether `os.remove` on the key file succeeds (lines 242-245 swallow its
  exceptions). -/
  removeKeyOk : Bool

/-- An abstract rendering of a JSON payload, standing in for Python's
`f"Deployment failed: ..."` interpolation of the dict (line 188). -/
def bodyRepr (j : Body) : String :=
  String.intercalate ", " (j.map (fun p => p.1 ++ "=" ++ p.2))

/-- The `SystemExit` message of line 188. -/
def deployFailedMsg (j : Body) : String := "Deployment failed: " ++ bodyRepr j

/-- The `try` body of `main` (lines 216-237): materialize the credential if
key material is provided (lines 217-218), then push — DirectHead mode
validates the worktree first (lines 221-224), ArtifactDir mode prepares and
pushes the clone (lines 225-227) — then poll if a status URL was given and
polling was not skipped (lines 231-233).  Returns the steps performed in
order, the outcome, and whether a credential file was created. -/
def mainBody (a : MainArgs) (e : MainEnv) : List MStep × Outcome × Bool :=
  let created := truthy e.gitSshKey
  let keySteps : List MStep := if created then [.writeKey] else []
  let sshPath : Option String := if created then some e.keyPath else none
  let afterPush : List MStep → List MStep × Outcome × Bool := fun st =>
    if truthy a.statusUrl && !a.skipPoll then
      match (poll_status_url e.pollScript e.pollDelay 3 a.statusTimeout).1 with
      | .failed jj => (st ++ [.poll], .exit (deployFailedMsg jj), created)
      | _ => (st ++ [.poll], .ok, created)
    else (st, .ok, created)
  match a.artifactDir with
  | none =>
    match ensure_clean_worktree e.statusExit e.statusOut a.allowDirty with
    | .exit m => (keySteps ++ [.ensureClean], .exit m, created)
    | .ok =>
      match (git_push_current_head e.headExec a.remote a.branch sshPath a.force).2 with
      | .exit m => (keySteps ++ [.ensureClean, .pushHead], .exit m, created)
      | .ok => afterPush (keySteps ++ [.ensureClean, .pushHead])
  | some dir =>
    let msg := match a.commitMsg with
      | some m => if m = "" then "deploy: " ++ e.now else m
      | none => "deploy: " ++ e.now
    let r := git_push_artifact_dir e.artExec a.remote a.branch dir e.artifactDirExists
      sshPath msg a.force e.tmpDir
    match r.outcome with
    | .exit m => (keySteps ++ [.pushArtifact], .exit m, created)
    | .ok => afterPush (keySteps ++ [.pushArtifact])

/-- The observable result of one `main` run. -/
structure MainRun where
  steps : List MStep
  outcome : Outcome
  credCreated : Bool
  credExists : Bool

/-- Model of `main` (lines 211-245): run the body, then the `finally` block, which
removes the credential file when one was created (best-effort: an `os.remove`
failure is swallowed and leaves the file behind). -/
def mainRun (a : MainArgs) (e : MainEnv) : MainRun :=
  match mainBody a e with
  | (st, oc, created) =>
    if created then
      { steps := st ++ [.removeKey], outcome := oc, credCreated := true,
        credExists := !e.removeKeyOk }
    else
      { steps := st, outcome := oc, credCreated := false, credExists := false }

/-- A DirectHead invocation used by the concrete runs below. -/
def exampleArgs : MainArgs :=
  { remote := "git@example.com:app.git", branch := "main", artifactDir := none,
    commitMsg := none, allowDirty := false, force := false, statusUrl := none,
    statusTimeout := 300, skipPoll := false }

/-- An environment with key material and a dirty worktree, used by the
concrete runs below. -/
def exampleEnv : MainEnv :=
  { gitSshKey := some "LS0tLS1CRUdJTiBY", keyPath := "git_deploy_key_1",
    statusExit := 0, statusOut := " M app.py", headExec := fun _ _ => 0,
    artExec := fun _ _ => 0, artifactDirExists := true,
    tmpDir := "deploy_clone_1", now := "2026-10-12T00:00:00Z",
    pollScript := fun _ => .transportError, pollDelay := fun _ => 0,
    removeKeyOk := true }

/-! ## Claims -/

/-- The last element of a list extended by two elements. -/
lemma getLast?_append_two {α : Type} (l : List α) (a b : α) :
    (l ++ [a, b]).getLast? = some b := by
  have h : l ++ [a, b] = (l ++ [a]) ++ [b] := by simp
  rw [h, List.getLast?_concat]

/-- C1 (counterexample): the claim says the status is extracted by checking
the candidate field names for *presence*, first present one wins; on the body
with `status` present but empty and `state = "failed"` that reading resolves
the status to the empty string, which is in neither terminal set, so the
poller should keep polling — but the code's `or`-chain skips the falsy
`status` field, resolves `"failed"`, and stops fatally. -/
theorem C1_counterexample :
    jGet [("status", ""), ("state", "failed")] "status" = some "" ∧
    pollCycle [("status", ""), ("state", "failed")] =
      .fatal [("status", ""), ("state", "failed")] ∧
    pollCycle [("status", ""), ("state", "failed")] ≠
      .keepPolling [("status", ""), ("state", "failed")] := by
  decide

/-- C1 (amended): on each poll response the status is resolved by the chain
`status`, `state`, `deploy_status`, where the first field with a *truthy*
(present and non-empty) value wins and fields that are absent or empty are
skipped; if the resolved status is in the success set under lowercasing the
cycle succeeds with the full payload, else if it is in the failure set the
cycle stops fatally with the payload, and otherwise (including no resolved
status) the cycle keeps polling, remembering the payload as last-seen. -/
theorem C1_status_resolution (j : Body) :
    (∀ s, jGet j "status" = some s → s ≠ "" → extractStatus j = some s) ∧
    (∀ s, truthy (jGet j "status") = false → jGet j "state" = some s → s ≠ "" →
      extractStatus j = some s) ∧
    (∀ s, truthy (jGet j "status") = false → truthy (jGet j "state") = false →
      jGet j "deploy_status" = some s → s ≠ "" → extractStatus j = some s) ∧
    (truthy (jGet j "status") = false → truthy (jGet j "state") = false →
      truthy (jGet j "deploy_status") = false → extractStatus j = none) ∧
    (∀ s, extractStatus j = some s → successSet.contains (toLowerStr s) = true →
      pollCycle j = .succeed j) ∧
    (∀ s, extractStatus j = some s → successSet.contains (toLowerStr s) = false →
      failureSet.contains (toLowerStr s) = true → pollCycle j = .fatal j) ∧
    (∀ s, extractStatus j = some s → successSet.contains (toLowerStr s) = false →
      failureSet.contains (toLowerStr s) = false → pollCycle j = .keepPolling j) ∧
    (extractStatus j = none → pollCycle j = .keepPolling j) := by
  refine ⟨?_, ?_, ?_, ?_, ?_, ?_, ?_, ?_⟩
  · intro s h hs
    simp [extractStatus, h, pyOr, hs]
  · intro s h0 h1 hs
    rcases hst : jGet j "status" with _ | t
    · simp [extractStatus, hst, h1, pyOr, hs]
    · rw [hst] at h0
      have ht : t = "" := by simpa [truthy] using h0
      subst ht
      simp [extractStatus, hst, h1, pyOr, hs]
  · intro s h0 h1 h2 hs
    rcases hst : jGet j "status" with _ | t <;>
      rcases hsta : jGet j "state" with _ | u
    · simp [extractStatus, hst, hsta, h2, pyOr, hs]
    · rw [hsta] at h1
      have hu : u = "" := by simpa [truthy] using h1
      subst hu
      simp [extractStatus, hst, hsta, h2, pyOr, hs]
    · rw [hst] at h0
      have ht : t = "" := by simpa [truthy] using h0
      subst ht
      simp [extractStatus, hst, hsta, h2, pyOr, hs]
    · rw [hst] at h0
      rw [hsta] at h1
      have ht : t = "" := by simpa [truthy] using h0
      have hu : u = "" := by simpa [truthy] using h1
      subst ht
      subst hu
      simp [extractStatus, hst, hsta, h2, pyOr, hs]
  · intro h0 h1 h2
    rcases hst : jGet j "status" with _ | t <;>
      rcases hsta : jGet j "state" with _ | u <;>
        rcases hsd : jGet j "deploy_status" with _ | v <;>
          rw [hst] at h0 <;> rw [hsta] at h1 <;> rw [hsd] at h2 <;>
            simp [truthy] at h0 h1 h2 <;>
              simp [extractStatus, hst, hsta, hsd, pyOr] <;> simp_all
  · intro s h hsucc
    have hs2 : toLowerStr s ∈ successSet := by simpa using hsucc
    simp [pollCycle, h, hs2]
  · intro s h hsucc hfail
    have hs2 : toLowerStr s ∉ successSet := by simpa using hsucc
    have hf2 : toLowerStr s ∈ failureSet := by simpa using hfail
    simp [pollCycle, h, hs2, hf2]
  · intro s h hsucc hfail
    have hs2 : toLowerStr s ∉ successSet := by simpa using hsucc
    have hf2 : toLowerStr s ∉ failureSet := by simpa using hfail
    simp [pollCycle, h, hs2, hf2]
  · intro h
    simp [pollCycle, h]

/-- C1 (witness): a response carrying only `state = "DONE"` resolves the
status through the second candidate and succeeds case-insensitively. -/
theorem C1_witness :
    extractStatus [("state", "DONE")] = some "DONE" ∧
    pollCycle [("state", "DONE")] = .succeed [("state", "DONE")] := by
  have h := C1_status_resolution [("state", "DONE")]
  have h1 : extractStatus [("state", "DONE")] = some "DONE" :=
    h.2.1 "DONE" (by decide) (by decide) (by decide)
  exact ⟨h1, h.2.2.2.2.1 "DONE" h1 (by decide)⟩

/-- C2 (counterexample): with the remote added successfully and the push
exiting 1, `git_push_current_head` raises `SystemExit` straight from the push:
its trace ends with the push command and contains only the single pre-push
(non-raising) removal of the temporary remote — no removal is attempted after
the failed push. -/
theorem C2_counterexample :
    (git_push_current_head (fun i _ => if i == 2 then 1 else 0)
        "git@example.com:app.git" "main" none false).2 =
      .exit (cmdFailMsg (pushHeadCmd "main" false) 1) ∧
    ((git_push_current_head (fun i _ => if i == 2 then 1 else 0)
        "git@example.com:app.git" "main" none false).1.count (.cmd rmRemoteCmd)) = 1 ∧
    (git_push_current_head (fun i _ => if i == 2 then 1 else 0)
        "git@example.com:app.git" "main" none false).1.getLast? =
      some (.cmd (pushHeadCmd "main" false)) := by
  decide

/-- C2 (amended): in DirectHead mode the temporary remote is removed with
non-raising command execution *before* it is registered, and again *after the
push only when the push succeeded*; when the push exits nonzero the function
raises `SystemExit` at the push and the post-push removal of the temporary
remote is not attempted (there is no `try/finally` in
`git_push_current_head`). -/
theorem C2_push_head_cleanup (exec : Nat → Cmd → Nat) (remoteUrl branch : String)
    (sshKeyPath : Option String) (force : Bool)
    (hadd : exec 1 (addRemoteCmd remoteUrl) = 0) :
    (exec 2 (pushHeadCmd branch force) = 0 →
      git_push_current_head exec remoteUrl branch sshKeyPath force =
        (sshPre sshKeyPath ++ runStep rmRemoteCmd ++ runStep (addRemoteCmd remoteUrl) ++
          runStep (pushHeadCmd branch force) ++ runStep rmRemoteCmd, .ok)) ∧
    (∀ c, exec 2 (pushHeadCmd branch force) = c → c ≠ 0 →
      git_push_current_head exec remoteUrl branch sshKeyPath force =
        (sshPre sshKeyPath ++ runStep rmRemoteCmd ++ runStep (addRemoteCmd remoteUrl) ++
          runStep (pushHeadCmd branch force),
          .exit (cmdFailMsg (pushHeadCmd branch force) c))) := by
  constructor
  · intro hp
    simp [git_push_current_head, hadd, hp]
  · intro c hc hcne
    simp [git_push_current_head, hadd, hc, hcne]

/-- C2 (witness): a fully successful DirectHead push performs
remove-add-push-remove in that order. -/
theorem C2_witness :
    git_push_current_head (fun _ _ => 0) "git@example.com:app.git" "main" none false =
      (runStep rmRemoteCmd ++ runStep (addRemoteCmd "git@example.com:app.git") ++
        runStep (pushHeadCmd "main" false) ++ runStep rmRemoteCmd, .ok) := by
  have h := C2_push_head_cleanup (fun _ _ => 0) "git@example.com:app.git" "main" none false rfl
  simpa [sshPre] using h.1 rfl

/-- C3 (counterexample): the commit step exits 128 (a hard git failure such as
a missing identity, not the nothing-to-commit case), yet the run does not
abort: it proceeds to the push and finishes normally, because the commit is
executed with non-raising `check=False` unconditionally. -/
theorem C3_counterexample :
    (git_push_artifact_dir (fun i _ => if i == 3 then 128 else 0)
        "git@example.com:app.git" "main" "dist" true none "deploy: now" false
        "deploy_clone_x").outcome = .ok ∧
    Step.cmd (commitCmd "deploy: now") ∈
      (git_push_artifact_dir (fun i _ => if i == 3 then 128 else 0)
        "git@example.com:app.git" "main" "dist" true none "deploy: now" false
        "deploy_clone_x").trace ∧
    Step.cmd (pushArtifactCmd "main" false) ∈
      (git_push_artifact_dir (fun i _ => if i == 3 then 128 else 0)
        "git@example.com:app.git" "main" "dist" true none "deploy: now" false
        "deploy_clone_x").trace := by
  decide

/-- C3 (amended): in ArtifactDir payload preparation *every* failure of the
commit step is tolerated as a no-op — the commit runs with non-raising command
execution, its exit code is never inspected, and the run always proceeds to
the push: no git failure of the commit step aborts the run. -/
theorem C3_commit_always_tolerated (exec : Nat → Cmd → Nat)
    (remoteUrl branch artifactDir : String) (sshKeyPath : Option String)
    (commitMsg : String) (force : Bool) (tmp : String)
    (h0 : exec 0 (cloneCmd remoteUrl tmp) = 0) (h1 : exec 1 (checkoutCmd branch) = 0)
    (h2 : exec 2 addCmd = 0) (h4 : exec 4 (pushArtifactCmd branch force) = 0) :
    (git_push_artifact_dir exec remoteUrl branch artifactDir true sshKeyPath
        commitMsg force tmp).outcome = .ok ∧
    Step.cmd (pushArtifactCmd branch force) ∈
      (git_push_artifact_dir exec remoteUrl branch artifactDir true sshKeyPath
        commitMsg force tmp).trace := by
  constructor
  · simp [git_push_artifact_dir, artifactBody, h0, h1, h2, h4]
  · simp [git_push_artifact_dir, artifactBody, h0, h1, h2, h4, runStep]

/-- C3 (witness): with the commit step failing with exit 1 and every other
git command succeeding, the ArtifactDir run completes normally. -/
theorem C3_witness :
    (git_push_artifact_dir (fun i _ => if i == 3 then 1 else 0)
        "git@example.com:app.git" "main" "dist" true none "deploy: now" false
        "deploy_clone_x").outcome = .ok :=
  (C3_commit_always_tolerated (fun i _ => if i == 3 then 1 else 0)
    "git@example.com:app.git" "main" "dist" none "deploy: now" false
    "deploy_clone_x" rfl rfl rfl rfl).1

/-- C7: on every path through `git_push_artifact_dir` — clone failure,
checkout failure, missing artifact directory, add failure, push failure, or
full success — the `finally` block runs: the trace ends with the removal of
the ephemeral clone directory and the directory no longer exists afterwards. -/
theorem C7_tmpdir_always_removed (exec : Nat → Cmd → Nat)
    (remoteUrl branch artifactDir : String) (artifactExists : Bool)
    (sshKeyPath : Option String) (commitMsg : String) (force : Bool) (tmp : String) :
    (git_push_artifact_dir exec remoteUrl branch artifactDir artifactExists
        sshKeyPath commitMsg force tmp).tmpExists = false ∧
    (git_push_artifact_dir exec remoteUrl branch artifactDir artifactExists
        sshKeyPath commitMsg force tmp).trace.getLast? = some .removeTmpDir := by
  refine ⟨rfl, ?_⟩
  exact getLast?_append_two _ _ _

/-- C10: in ArtifactDir mode with a nonexistent artifact directory, the
missing-directory `SystemExit` is raised only after the clone and checkout
succeeded and the clone's working tree was cleaned of every non-`.git` entry
(the trace shows clone, checkout and the cleaning pass before the error), and
a clone failure preempts the missing-directory error entirely. -/
theorem C10_missing_dir_after_clone (exec : Nat → Cmd → Nat)
    (remoteUrl branch artifactDir : String) (sshKeyPath : Option String)
    (commitMsg : String) (force : Bool) (tmp : String) :
    (exec 0 (cloneCmd remoteUrl tmp) = 0 → exec 1 (checkoutCmd branch) = 0 →
      git_push_artifact_dir exec remoteUrl branch artifactDir false sshKeyPath
          commitMsg force tmp =
        { trace := sshPre sshKeyPath ++
            [.print ("Cloning remote into tempdir " ++ tmp ++ " ...")] ++
            runStep (cloneCmd remoteUrl tmp) ++ runStep (checkoutCmd branch) ++
            [.cleanWorkdir] ++ [.print "Cleaning up tempdir", .removeTmpDir],
          outcome := .exit ("artifact_dir " ++ artifactDir ++ " does not exist"),
          tmpExists := false }) ∧
    (∀ c, exec 0 (cloneCmd remoteUrl tmp) = c → c ≠ 0 →
      (git_push_artifact_dir exec remoteUrl branch artifactDir false sshKeyPath
          commitMsg force tmp).outcome = .exit (cmdFailMsg (cloneCmd remoteUrl tmp) c)) := by
  constructor
  · intro h0 h1
    simp [git_push_artifact_dir, artifactBody, h0, h1]
  · intro c hc hcne
    simp [git_push_artifact_dir, artifactBody, hc, hcne]

/-- C10 (witness): with clone and checkout succeeding and the artifact
directory missing, the run fails with the missing-directory message after
having cloned and cleaned. -/
theorem C10_witness :
    git_push_artifact_dir (fun _ _ => 0) "git@example.com:app.git" "main" "dist"
        false none "deploy: now" false "deploy_clone_x" =
      { trace := [.print ("Cloning remote into tempdir deploy_clone_x ...")] ++
          runStep (cloneCmd "git@example.com:app.git" "deploy_clone_x") ++
          runStep (checkoutCmd "main") ++ [.cleanWorkdir] ++
          [.print "Cleaning up tempdir", .removeTmpDir],
        outcome := .exit "artifact_dir dist does not exist",
        tmpExists := false } := by
  have h := (C10_missing_dir_after_clone (fun _ _ => 0) "git@example.com:app.git"
    "main" "dist" none "deploy: now" false "deploy_clone_x").1 rfl rfl
  simpa [sshPre] using h

/-- C4 (counterexample): the input `"raw\n"` does not base64-decode (three
data characters are an invalid length), so per the claim the original input
string's bytes `[114, 97, 119, 10]` should be written verbatim — but the code
strips the input first and writes `[114, 97, 119]`. -/
theorem C4_counterexample :
    write_ssh_key_if_provided (some "raw\n") =
      some { bytes := [114, 97, 119], mode := 0o600 } ∧
    strUtf8 "raw\n" = [114, 97, 119, 10] ∧
    (write_ssh_key_if_provided (some "raw\n")).map KeyFile.bytes ≠
      some (strUtf8 "raw\n") := by
  decide

/-- C4 (amended): for every non-empty key-material input, the Credential
Materializer first strips surrounding whitespace; if the stripped string
base64-decodes to bytes containing the `BEGIN` marker within their first 50
bytes, exactly those decoded bytes are written to a freshly created file with
owner-only (0600) permissions; if the stripped string does not base64-decode,
or decodes to bytes lacking the marker in their first 50 bytes, the stripped
input string's bytes are written instead (not the original input verbatim). -/
theorem C4_key_material (raw : String) (hraw : raw ≠ "") :
    (∀ bs, b64decodeOpt (pyStrip raw) = some bs →
      bytesContain beginMarker (bs.take 50) = true →
      write_ssh_key_if_provided (some raw) = some { bytes := bs, mode := 0o600 }) ∧
    (∀ bs, b64decodeOpt (pyStrip raw) = some bs →
      bytesContain beginMarker (bs.take 50) = false →
      write_ssh_key_if_provided (some raw) =
        some { bytes := strUtf8 (pyStrip raw), mode := 0o600 }) ∧
    (b64decodeOpt (pyStrip raw) = none →
      write_ssh_key_if_provided (some raw) =
        some { bytes := strUtf8 (pyStrip raw), mode := 0o600 }) := by
  refine ⟨?_, ?_, ?_⟩
  · intro bs hdec hmark
    simp [write_ssh_key_if_provided, hraw, hdec, hmark]
  · intro bs hdec hmark
    simp [write_ssh_key_if_provided, hraw, hdec, hmark]
  · intro hdec
    simp [write_ssh_key_if_provided, hraw, hdec]

/-- C4 (witness): the base64 encoding of `"-----BEGIN X"` decodes with the
marker in range, so exactly the decoded bytes are written with mode 0600. -/
theorem C4_witness :
    write_ssh_key_if_provided (some "LS0tLS1CRUdJTiBY") =
      some { bytes := [45, 45, 45, 45, 45, 66, 69, 71, 73, 78, 32, 88],
             mode := 0o600 } :=
  (C4_key_material "LS0tLS1CRUdJTiBY" (by decide)).1
    [45, 45, 45, 45, 45, 66, 69, 71, 73, 78, 32, 88] (by decide) (by decide)

/-- Once the deadline has passed, the loop stops immediately with the
last-seen payload and performs no poll. -/
lemma pollAux_stop (script : Nat → HttpResult) (delay : Nat → Nat)
    (interval timeout fuel k t : Nat) (last : Option Body) (h : ¬ t < timeout) :
    pollAux script delay interval timeout fuel k t last = (.timedOut last, 0) := by
  cases fuel <;> simp [pollAux, h]

/-- The number of polls performed from elapsed time `t` is at most the number
of whole intervals that fit in the remaining time, rounded up. -/
lemma pollAux_count_le (script : Nat → HttpResult) (delay : Nat → Nat)
    (interval timeout : Nat) (hi : 1 ≤ interval) :
    ∀ fuel k t last,
      (pollAux script delay interval timeout fuel k t last).2 ≤
        (timeout - t + interval - 1) / interval := by
  intro fuel
  induction fuel with
  | zero =>
    intro k t last
    simp [pollAux]
  | succ fuel ih =>
    intro k t last
    by_cases ht : t < timeout
    · have hone : 1 ≤ (timeout - t + interval - 1) / interval := by
        rw [Nat.le_div_iff_mul_le (by omega : 0 < interval)]
        omega
      have hstep : ∀ last2 : Option Body,
          (pollAux script delay interval timeout fuel (k + 1)
            (t + delay k + interval) last2).2 + 1 ≤
            (timeout - t + interval - 1) / interval := by
        intro last2
        by_cases ht2 : t + delay k + interval < timeout
        · have hrec := ih (k + 1) (t + delay k + interval) last2
          calc (pollAux script delay interval timeout fuel (k + 1)
                (t + delay k + interval) last2).2 + 1
              ≤ (timeout - (t + delay k + interval) + interval - 1) / interval + 1 :=
                Nat.add_le_add_right hrec 1
            _ = (timeout - (t + delay k + interval) + interval - 1 + interval) / interval :=
                (Nat.add_div_right _ (by omega)).symm
            _ ≤ (timeout - t + interval - 1) / interval :=
                Nat.div_le_div_right (by omega)
        · rw [pollAux_stop script delay interval timeout fuel (k + 1)
            (t + delay k + interval) last2 ht2]
          simpa using hone
      rcases hs : script k with j | _
      · rcases hc : pollCycle j with j2 | j2 | j2
        · simpa [pollAux, ht, hs, hc] using hone
        · simpa [pollAux, ht, hs, hc] using hone
        · simpa [pollAux, ht, hs, hc] using hstep (some j)
      · simpa [pollAux, ht, hs] using hstep last
    · rw [pollAux_stop script delay interval timeout (fuel + 1) k t last ht]
      simp

/-- The cycle function always hands back the body it was given. -/
lemma pollCycle_payload (j : Body) :
    pollCycle j = .succeed j ∨ pollCycle j = .fatal j ∨ pollCycle j = .keepPolling j := by
  unfold pollCycle
  rcases extractStatus j with _ | s
  · simp
  · by_cases h1 : successSet.contains (toLowerStr s) = true <;>
      by_cases h2 : failureSet.contains (toLowerStr s) = true <;>
        simp_all

/-- A non-terminal response keeps polling with its own body as payload. -/
lemma nonTerminal_response (j : Body) (h : nonTerminal (.response j) = true) :
    pollCycle j = .keepPolling j := by
  rcases pollCycle_payload j with h1 | h1 | h1
  · simp [nonTerminal, h1] at h
  · simp [nonTerminal, h1] at h
  · exact h1

/-- When no scripted cycle is terminal, the loop always times out, returning
the last response body seen among the cycles it executed. -/
lemma pollAux_nonterminal (script : Nat → HttpResult) (delay : Nat → Nat)
    (interval timeout : Nat) (hs : ∀ m, nonTerminal (script m) = true) :
    ∀ fuel k t last, ∃ n,
      pollAux script delay interval timeout fuel k t last =
        (.timedOut (lastSeenFrom script k n last), n) := by
  intro fuel
  induction fuel with
  | zero =>
    intro k t last
    exact ⟨0, by simp [pollAux, lastSeenFrom]⟩
  | succ fuel ih =>
    intro k t last
    by_cases ht : t < timeout
    · rcases hsk : script k with j | _
      · have hc : pollCycle j = .keepPolling j := by
          have h2 := hs k
          rw [hsk] at h2
          exact nonTerminal_response j h2
        obtain ⟨n, hn⟩ := ih (k + 1) (t + delay k + interval) (some j)
        refine ⟨n + 1, ?_⟩
        simp [pollAux, ht, hsk, hc, hn, lastSeenFrom]
      · obtain ⟨n, hn⟩ := ih (k + 1) (t + delay k + interval) last
        refine ⟨n + 1, ?_⟩
        simp [pollAux, ht, hsk, hn, lastSeenFrom]
    · exact ⟨0, by rw [pollAux_stop script delay interval timeout (fuel + 1) k t last ht]
                   simp [lastSeenFrom]⟩

/-- C5: for every positive poll interval and every timeout, the poller
performs at most `ceil(timeout / interval)` HTTP GETs; and when no scripted
cycle is terminal, it ends in a `TimedOut` outcome carrying the last-seen
response body (or none), an outcome that is not the fatal `SystemExit`
(`isFatal = false`), so the process does not exit nonzero because of it. -/
theorem C5_poll_budget (script : Nat → HttpResult) (delay : Nat → Nat)
    (interval timeout : Nat) (hi : 1 ≤ interval) :
    (poll_status_url script delay interval timeout).2 ≤
      (timeout + interval - 1) / interval ∧
    ((∀ m, nonTerminal (script m) = true) →
      ∃ n, poll_status_url script delay interval timeout =
            (.timedOut (lastSeenFrom script 0 n none), n) ∧
          (poll_status_url script delay interval timeout).1.isFatal = false) := by
  constructor
  · have h := pollAux_count_le script delay interval timeout hi (timeout + 1) 0 0 none
    simpa [poll_status_url] using h
  · intro hs
    obtain ⟨n, hn⟩ := pollAux_nonterminal script delay interval timeout hs (timeout + 1) 0 0 none
    refine ⟨n, ?_, ?_⟩
    · simpa [poll_status_url] using hn
    · simp [poll_status_url, hn, PollResult.isFatal]

/-- C5 (witness): with responses that are forever `pending`, timeout 6 and
interval 3, the poller performs at most `ceil(6 / 3) = 2` polls and the
outcome is a non-fatal timeout. -/
theorem C5_witness :
    (poll_status_url (fun _ => .response [("status", "pending")]) (fun _ => 0) 3 6).2 ≤ 2 ∧
    (poll_status_url (fun _ => .response [("status", "pending")]) (fun _ => 0) 3 6).1.isFatal
      = false := by
  have h := C5_poll_budget (fun _ => .response [("status", "pending")]) (fun _ => 0) 3 6
    (by decide)
  have hnt : nonTerminal (.response [("status", "pending")]) = true := by decide
  obtain ⟨n, _, hfatal⟩ := h.2 (fun _ => hnt)
  exact ⟨h.1, hfatal⟩

/-- C6: whenever a credential file was created and `os.remove` succeeds, the
`finally` block of `main` removes it on every exit path — the run ends with
the credential file gone and, when one was created, the removal is the very
last orchestration step. -/
theorem C6_cred_always_removed (a : MainArgs) (e : MainEnv)
    (hrm : e.removeKeyOk = true) :
    (mainRun a e).credExists = false ∧
    ((mainRun a e).credCreated = true →
      (mainRun a e).steps.getLast? = some .removeKey) := by
  unfold mainRun
  rcases hb : mainBody a e with ⟨st, oc, created⟩
  cases created
  · simp
  · simp [hrm, List.getLast?_concat]

/-- C6 (witness): a run with key material that fails the dirty-worktree
precondition partway still ends with the credential file removed, as the last
step. -/
theorem C6_witness :
    (mainRun exampleArgs exampleEnv).credCreated = true ∧
    (mainRun exampleArgs exampleEnv).outcome ≠ .ok ∧
    (mainRun exampleArgs exampleEnv).credExists = false ∧
    (mainRun exampleArgs exampleEnv).steps.getLast? = some .removeKey := by
  have h := C6_cred_always_removed exampleArgs exampleEnv rfl
  exact ⟨by decide, by decide, h.1, h.2 (by decide)⟩

/-- C8 (counterexample): a DirectHead run with key material materializes the
credential *first* and only then validates the dirty-worktree precondition —
here the worktree is dirty, so the run fails at the validation step, after
the key file was already written. -/
theorem C8_counterexample :
    (mainRun exampleArgs exampleEnv).steps = [.writeKey, .ensureClean, .removeKey] ∧
    (mainRun exampleArgs exampleEnv).steps.head? = some .writeKey := by
  decide

/-- The step list of the `try` body of `main`: an optional credential
materialization first, then either the DirectHead pair (validation, then
push, truncated at a validation failure) or the ArtifactDir preparation-push,
then optionally one poll; a credential file is created exactly when key
material was provided. -/
lemma mainBody_steps (a : MainArgs) (e : MainEnv) :
    ∃ mid pol,
      (mainBody a e).1 =
        (if truthy e.gitSshKey then [MStep.writeKey] else []) ++ mid ++ pol ∧
      ((a.artifactDir = none ∧
          (mid = [MStep.ensureClean] ∨ mid = [MStep.ensureClean, MStep.pushHead])) ∨
        (a.artifactDir ≠ none ∧ mid = [MStep.pushArtifact])) ∧
      (pol = [] ∨
        (pol = [MStep.poll] ∧ truthy a.statusUrl = true ∧ a.skipPoll = false)) ∧
      (mainBody a e).2.2 = truthy e.gitSshKey := by
  unfold mainBody
  rcases had : a.artifactDir with _ | dir
  · cases hclean : ensure_clean_worktree e.statusExit e.statusOut a.allowDirty with
    | exit m =>
      refine ⟨[MStep.ensureClean], [], by simp, ?_, Or.inl rfl, by simp⟩
      exact Or.inl ⟨rfl, Or.inl rfl⟩
    | ok =>
      cases hpush : (git_push_current_head e.headExec a.remote a.branch
          (if truthy e.gitSshKey then some e.keyPath else none) a.force).2 with
      | exit m =>
        refine ⟨[MStep.ensureClean, MStep.pushHead], [], by simp [hpush], ?_,
          Or.inl rfl, by simp [hpush]⟩
        exact Or.inl ⟨rfl, Or.inr rfl⟩
      | ok =>
        by_cases hp : truthy a.statusUrl = true ∧ a.skipPoll = false
        · cases hpoll : (poll_status_url e.pollScript e.pollDelay 3 a.statusTimeout).1 with
          | failed j =>
            refine ⟨[MStep.ensureClean, MStep.pushHead], [MStep.poll],
              by simp [hpush, hp, hpoll], ?_, Or.inr ⟨rfl, hp.1, hp.2⟩,
              by simp [hpush, hp, hpoll]⟩
            exact Or.inl ⟨rfl, Or.inr rfl⟩
          | succeeded j =>
            refine ⟨[MStep.ensureClean, MStep.pushHead], [MStep.poll],
              by simp [hpush, hp, hpoll], ?_, Or.inr ⟨rfl, hp.1, hp.2⟩,
              by simp [hpush, hp, hpoll]⟩
            exact Or.inl ⟨rfl, Or.inr rfl⟩
          | timedOut l =>
            refine ⟨[MStep.ensureClean, MStep.pushHead], [MStep.poll],
              by simp [hpush, hp, hpoll], ?_, Or.inr ⟨rfl, hp.1, hp.2⟩,
              by simp [hpush, hp, hpoll]⟩
            exact Or.inl ⟨rfl, Or.inr rfl⟩
        · refine ⟨[MStep.ensureClean, MStep.pushHead], [], by simp [hpush, hp], ?_,
            Or.inl rfl, by simp [hpush, hp]⟩
          exact Or.inl ⟨rfl, Or.inr rfl⟩
  · cases hart : (git_push_artifact_dir e.artExec a.remote a.branch dir e.artifactDirExists
        (if truthy e.gitSshKey then some e.keyPath else none)
        (match a.commitMsg with
          | some m => if m = "" then "deploy: " ++ e.now else m
          | none => "deploy: " ++ e.now) a.force e.tmpDir).outcome with
    | exit m =>
      refine ⟨[MStep.pushArtifact], [], by simp [hart], ?_, Or.inl rfl, by simp [hart]⟩
      exact Or.inr ⟨by simp, rfl⟩
    | ok =>
      by_cases hp : truthy a.statusUrl = true ∧ a.skipPoll = false
      · cases hpoll : (poll_status_url e.pollScript e.pollDelay 3 a.statusTimeout).1 with
        | failed j =>
          refine ⟨[MStep.pushArtifact], [MStep.poll], by simp [hart, hp, hpoll], ?_,
            Or.inr ⟨rfl, hp.1, hp.2⟩, by simp [hart, hp, hpoll]⟩
          exact Or.inr ⟨by simp, rfl⟩
        | succeeded j =>
          refine ⟨[MStep.pushArtifact], [MStep.poll], by simp [hart, hp, hpoll], ?_,
            Or.inr ⟨rfl, hp.1, hp.2⟩, by simp [hart, hp, hpoll]⟩
          exact Or.inr ⟨by simp, rfl⟩
        | timedOut l =>
          refine ⟨[MStep.pushArtifact], [MStep.poll], by simp [hart, hp, hpoll], ?_,
            Or.inr ⟨rfl, hp.1, hp.2⟩, by simp [hart, hp, hpoll]⟩
          exact Or.inr ⟨by simp, rfl⟩
      · refine ⟨[MStep.pushArtifact], [], by simp [hart, hp], ?_, Or.inl rfl,
          by simp [hart, hp]⟩
        exact Or.inr ⟨by simp, rfl⟩

/-- C8 (amended): the orchestrator performs its steps in the order —
materialize the credential if key material was provided *first*, then (in
DirectHead mode only) validate the dirty-worktree precondition, then execute
the push of the chosen payload, then (if a status URL was given and polling
not skipped) run the Status Poller, and finally remove the credential; every
run's step list is a subsequence of this canonical order, credential
materialization is the head step whenever key material is provided, and in
particular the dirty-worktree validation happens *after* credential
materialization, not before. -/
theorem C8_step_order (a : MainArgs) (e : MainEnv) :
    List.Sublist (mainRun a e).steps
      [.writeKey, .ensureClean, .pushHead, .pushArtifact, .poll, .removeKey] ∧
    (truthy e.gitSshKey = true → (mainRun a e).steps.head? = some .writeKey) ∧
    (truthy e.gitSshKey = false → MStep.writeKey ∉ (mainRun a e).steps) ∧
    (a.artifactDir = none → MStep.pushArtifact ∉ (mainRun a e).steps) ∧
    (a.artifactDir ≠ none →
      MStep.ensureClean ∉ (mainRun a e).steps ∧ MStep.pushHead ∉ (mainRun a e).steps) ∧
    ((truthy a.statusUrl = false ∨ a.skipPoll = true) →
      MStep.poll ∉ (mainRun a e).steps) := by
  obtain ⟨mid, pol, hsteps, hmid, hpol, hcreated⟩ := mainBody_steps a e
  have hrun : (mainRun a e).steps =
      (if truthy e.gitSshKey then [MStep.writeKey] else []) ++ mid ++ pol ++
        (if truthy e.gitSshKey then [MStep.removeKey] else []) := by
    unfold mainRun
    rcases hb : mainBody a e with ⟨st, oc, created⟩
    rw [hb] at hsteps hcreated
    simp only at hsteps hcreated
    subst hcreated
    cases hkey : truthy e.gitSshKey <;> simp [hkey] at hsteps ⊢ <;> simp [hsteps]
  rcases hmid with ⟨hdir, hmid2 | hmid2⟩ | ⟨hdir, hmid2⟩ <;>
    rcases hpol with hpol2 | ⟨hpol2, hurl, hskip⟩ <;>
      subst hmid2 <;> subst hpol2 <;>
        cases hkey : truthy e.gitSshKey <;>
          simp only [hkey, if_true, if_false] at hrun <;>
            refine ⟨?_, ?_, ?_, ?_, ?_, ?_⟩ <;>
              simp_all +decide

/-- C8 (witness): in the concrete run with key material provided, credential
materialization is the head step of the orchestration. -/
theorem C8_witness :
    (mainRun exampleArgs exampleEnv).steps.head? = some .writeKey ∧
    MStep.pushArtifact ∉ (mainRun exampleArgs exampleEnv).steps := by
  have h := C8_step_order exampleArgs exampleEnv
  exact ⟨h.2.1 rfl, h.2.2.2.1 rfl⟩

/-- C9 (counterexample): when GHCR credentials are provided,
`docker_login_if_needed` builds the login shell command with the raw token
interpolated and `run` echoes that command line, so the secret token appears
verbatim inside a printed line. -/
theorem C9_counterexample :
    DStep.print "$ echo S3CR3T | docker login ghcr.io -u user1 --password-stdin" ∈
      docker_login_if_needed "ghcr.io/org/app" (some "user1") (some "S3CR3T") ∧
    bytesContain (strUtf8 "S3CR3T")
      (strUtf8 "$ echo S3CR3T | docker login ghcr.io -u user1 --password-stdin") = true := by
  decide

/-- C9 (amended): every external command invocation is echoed to stdout
immediately before execution — in the deploy adapter's push functions and in
the registry login — but secrets are not always kept out of that stream: the
deploy adapter passes only the key-file path on command lines, while the GHCR
login embeds the registry token (and username) in the shell command it
echoes, so the token is printed whenever GHCR credentials are provided. -/
theorem C9_echo_and_token (exec : Nat → Cmd → Nat)
    (remoteUrl branch artifactDir : String) (artifactExists : Bool)
    (sshKeyPath : Option String) (commitMsg : String) (force : Bool) (tmp : String)
    (imageRef : String) (ghcrUser ghcrToken : Option String) (u t : String) :
    echoed (git_push_current_head exec remoteUrl branch sshKeyPath force).1 = true ∧
    echoed (git_push_artifact_dir exec remoteUrl branch artifactDir artifactExists
      sshKeyPath commitMsg force tmp).trace = true ∧
    dEchoed (docker_login_if_needed imageRef ghcrUser ghcrToken) = true ∧
    (strStartsWith imageRef "ghcr.io/" = true → u ≠ "" → t ≠ "" →
      DStep.print ("$ " ++ ("echo " ++ t ++ " | docker login ghcr.io -u " ++ u ++
          " --password-stdin")) ∈
        docker_login_if_needed imageRef (some u) (some t)) := by
  refine ⟨?_, ?_, ?_, ?_⟩
  · unfold git_push_current_head
    rcases sshKeyPath with _ | p <;>
      by_cases h1 : exec 1 (addRemoteCmd remoteUrl) = 0 <;>
        by_cases h2 : exec 2 (pushHeadCmd branch force) = 0 <;>
          simp [h1, h2, sshPre, echoed, runStep]
  · unfold git_push_artifact_dir artifactBody
    rcases sshKeyPath with _ | p <;>
      by_cases h0 : exec 0 (cloneCmd remoteUrl tmp) = 0 <;>
        by_cases h1 : exec 1 (checkoutCmd branch) = 0 <;>
          cases artifactExists <;>
            by_cases h2 : exec 2 addCmd = 0 <;>
              by_cases h4 : exec 4 (pushArtifactCmd branch force) = 0 <;>
                simp [h0, h1, h2, h4, sshPre, echoed, runStep]
  · unfold docker_login_if_needed
    repeat' split
    all_goals simp [dEchoed, runSh]
  · intro hg hu ht
    simp [docker_login_if_needed, hg, truthy, hu, ht, runSh]

/-- C9 (witness): with a concrete GHCR image, username and token, the echoed
login line containing the token is part of the visible trace. -/
theorem C9_witness :
    DStep.print "$ echo tok123 | docker login ghcr.io -u dev --password-stdin" ∈
      docker_login_if_needed "ghcr.io/org/app" (some "dev") (some "tok123") := by
  have h := C9_echo_and_token (fun _ _ => 0) "u" "b" "d" true none "m" false "t"
    "ghcr.io/org/app" (some "dev") (some "tok123") "dev" "tok123"
  exact h.2.2.2 (by decide) (by decide) (by decide)
